import Mathlib

/-!
Shallow embedding of src/src/LibJpegWrap/LibJpegWrap.cpp, a memory-buffer
wrapper around the libjpeg engine.

The engine itself (header parsing, entropy coding, DCT) is an external
library, outside this repository.  Where a wrapper function branches on an
engine verdict, the verdict is a parameter of the embedded function: an
Option of the engine-reported fields, with none meaning the engine did not
report success.  Pointers are modelled as byte offsets; C pointer
arithmetic on them is integer arithmetic.  ulong and size_t quantities are
Nat, with explicit reduction modulo 2 ^ 64 where the C code can wrap.
-/

namespace LibJpegWrap

/-- J_COLOR_SPACE enum values from jpeglib.h. -/
def JCS_GRAYSCALE : Int := 1

/-- J_COLOR_SPACE value of YCbCr in jpeglib.h. -/
def JCS_YCbCr : Int := 3

/-- J_DCT_METHOD from jpeglib.h. -/
inductive DctMethod where
  | JDCT_ISLOW
  | JDCT_IFAST
  | JDCT_FLOAT
deriving DecidableEq, Repr

/-- jpeglib.h maps the JDCT_FASTEST macro to JDCT_IFAST by default. -/
def JDCT_FASTEST : DctMethod := DctMethod.JDCT_IFAST

/-- Public fields of struct jpeg_destination_mgr: the engine-visible write
    window plus the three callback slots.  Callback slots hold opaque ids. -/
structure jpeg_destination_mgr where
  next_output_byte : Nat
  free_in_buffer : Nat
  init_destination_cb : Nat
  empty_output_buffer_cb : Nat
  term_destination_cb : Nat
deriving DecidableEq, Repr

/-- struct memory_destination_mgr, lines 54-59 of LibJpegWrap.cpp. -/
structure memory_destination_mgr where
  pub : jpeg_destination_mgr
  buffer : Nat
  buffer_size : Nat
  data_size : Nat
deriving DecidableEq, Repr

/-- init_destination, lines 61-66. -/
def init_destination (d : memory_destination_mgr) : memory_destination_mgr :=
  { d with
    pub := { d.pub with next_output_byte := d.buffer, free_in_buffer := d.buffer_size }
    data_size := 0 }

/-- empty_output_buffer, lines 68-75: unconditionally refuses to provide
    more room (returns FALSE to the engine). -/
def empty_output_buffer : Bool := false

/-- term_destination, lines 77-81.  The C subtraction is on ulong; in every
    state the adapter protocol produces, free_in_buffer is at most
    buffer_size (init_destination makes them equal and the engine only
    decrements free_in_buffer within the granted window), so Nat
    subtraction coincides with the C unsigned subtraction. -/
def term_destination (d : memory_destination_mgr) : memory_destination_mgr :=
  { d with data_size := d.buffer_size - d.pub.free_in_buffer }

/-- Opaque id standing for the address of init_destination. -/
def initDestinationId : Nat := 1

/-- Opaque id standing for the address of empty_output_buffer. -/
def emptyOutputBufferId : Nat := 2

/-- Opaque id standing for the address of term_destination. -/
def termDestinationId : Nat := 3

/-- jpeg_memory_dest, lines 82-106.  The Bool records whether the
    alloc_small branch ran (true means a new manager object was allocated).
    In the alloc branch the C code leaves pub.next_output_byte and
    pub.free_in_buffer uninitialised; 0 stands in for those indeterminate
    contents (no claim depends on them). -/
def jpeg_memory_dest (cur : Option memory_destination_mgr) (buffer size : Nat) :
    memory_destination_mgr × Bool :=
  match cur with
  | none =>
      ({ pub :=
           { next_output_byte := 0
             free_in_buffer := 0
             init_destination_cb := initDestinationId
             empty_output_buffer_cb := emptyOutputBufferId
             term_destination_cb := termDestinationId }
         buffer := buffer
         buffer_size := size
         data_size := 0 }, true)
  | some d => ({ d with buffer := buffer, buffer_size := size, data_size := 0 }, false)

/-- Abstract engine write activity against a bound destination: the engine
    stores n bytes into the granted window, advancing the cursor and
    shrinking free_in_buffer. -/
def engineWrite (d : memory_destination_mgr) (n : Nat) : memory_destination_mgr :=
  { d with
    pub := { d.pub with
             next_output_byte := d.pub.next_output_byte + n
             free_in_buffer := d.pub.free_in_buffer - n } }

/-- Result of the destination-manager lifecycle of one Encode call. -/
structure EncodeDestResult where
  ret : Nat
  dest : memory_destination_mgr
  allocatedNew : Bool
deriving DecidableEq, Repr

/-- Destination-manager lifecycle of YuvEncoder::Encode, lines 150-190:
    rebind via jpeg_memory_dest, jpeg_start_compress calls
    init_destination, the engine emits n bytes, jpeg_finish_compress calls
    term_destination, and the call returns dest->data_size. -/
def EncodeDest (cur : Option memory_destination_mgr) (dstBuffer dstBufferSize n : Nat) :
    EncodeDestResult :=
  let b := jpeg_memory_dest cur dstBuffer dstBufferSize
  let d1 := init_destination b.1
  let d2 := engineWrite d1 n
  let d3 := term_destination d2
  { ret := d3.data_size, dest := d3, allocatedNew := b.2 }

/-- Session state of class YuvEncoder (lines 108-195) relevant to the
    claims. -/
structure YuvEncoderState where
  image_width : Nat
  image_height : Nat
  quality : Int
  dct_method : DctMethod
  dest : Option memory_destination_mgr
deriving DecidableEq, Repr

/-- YuvEncoder::SetMode, lines 143-149. -/
def SetMode (st : YuvEncoderState) (mode : Int) : YuvEncoderState :=
  if mode == 0 then { st with dct_method := DctMethod.JDCT_ISLOW }
  else { st with dct_method := JDCT_FASTEST }

/-- Result of YuvEncoder::Encode at session level. -/
structure SessionEncodeResult where
  ret : Nat
  state : YuvEncoderState
  usedDct : DctMethod
deriving DecidableEq, Repr

/-- YuvEncoder::Encode, lines 150-190, at session level: the destination
    lifecycle of EncodeDest plus the session fields it reads and writes;
    the compression runs with the session's current dct_method, which the
    call does not modify. -/
def YuvEncoderEncode (st : YuvEncoderState) (dstBuffer dstBufferSize n : Nat) :
    SessionEncodeResult :=
  let r := EncodeDest st.dest dstBuffer dstBufferSize n
  { ret := r.ret
    state := { st with dest := some r.dest }
    usedDct := st.dct_method }

/-- sizeY, line 161: Y plane byte count. -/
def sizeY (width height : Nat) : Nat := width * height

/-- sizeU, line 162: U plane byte count. -/
def sizeU (width height : Nat) : Nat := sizeY width height / 4

/-- Iteration count of the loop at line 172 of YuvEncoder::Encode:
    for i = 0; i < 16 and next_scanline + i < image_height; i++. -/
def encBatchLen (s height : Nat) : Nat := min 16 (height - s)

/-- y row pointers built at line 173, as byte offsets from the caller's
    planar buffer (the Y plane starts at offset 0, line 166). -/
def enc_y_rows (s width height : Nat) : List Nat :=
  (List.range (encBatchLen s height)).map (fun i => (s + i) * width)

/-- cb row pointers built at line 175 for the even loop indices (entry i/2
    of the C array cb), as offsets from the caller's planar buffer; the U
    plane starts at offset sizeY (line 167). -/
def enc_cb_rows (s width height : Nat) : List Nat :=
  ((List.range (encBatchLen s height)).filter (fun i => i % 2 == 0)).map
    (fun i => sizeY width height + ((s + i) / 2) * (width / 2))

/-- cr row pointers built at line 176; the V plane starts at offset
    sizeY + sizeU (line 168). -/
def enc_cr_rows (s width height : Nat) : List Nat :=
  ((List.range (encBatchLen s height)).filter (fun i => i % 2 == 0)).map
    (fun i => sizeY width height + sizeU width height + ((s + i) / 2) * (width / 2))

/-- Engine-visible fields of struct jpeg_source_mgr: read cursor (a
    pointer, modelled as an integer address) and remaining byte count
    (size_t). -/
structure jpeg_source_mgr where
  next_input_byte : Int
  bytes_in_buffer : Nat
deriving DecidableEq, Repr

/-- size_t arithmetic wraps modulo 2 ^ 64; the modulus written as a
    numeral. -/
def SIZE_T_MOD : Nat := 18446744073709551616

/-- skip_input_data, lines 214-220: only strictly positive counts move the
    cursor; bytes_in_buffer -= num_bytes is size_t arithmetic. -/
def skip_input_data (s : jpeg_source_mgr) (num_bytes : Int) : jpeg_source_mgr :=
  if num_bytes > 0 then
    { next_input_byte := s.next_input_byte + num_bytes
      bytes_in_buffer := ((((s.bytes_in_buffer : Int) - num_bytes)) % ((SIZE_T_MOD : Nat) : Int)).toNat }
  else s

/-- fill_input_buffer, lines 209-212: all data was provided upfront, so the
    adapter reports FALSE (it cannot manufacture more input). -/
def fill_input_buffer : Bool := false

/-- struct DecodeInfo, lines 248-253. -/
structure DecodeInfo where
  width : Int
  height : Int
  components : Int
  colorSpace : Int
deriving DecidableEq, Repr

/-- Engine-reported values the grayscale decode path reads after
    jpeg_read_header and jpeg_start_decompress: the output geometry for the
    requested JCS_GRAYSCALE output.  An Option of this record models the
    header verdict: none means jpeg_read_header did not return
    JPEG_HEADER_OK (malformed or truncated header). -/
structure GrayDecompressParams where
  output_width : Nat
  output_height : Nat
  output_components : Nat
deriving DecidableEq, Repr

/-- Outcome of a decode wrapper call: the value returned, the caller's
    DecodeInfo (none while untouched), whether jpeg_abort_decompress ran,
    and whether jpeg_finish_decompress ran. -/
structure DecodeResult where
  ret : Nat
  info : Option DecodeInfo
  aborted : Bool
  finished : Bool
deriving DecidableEq, Repr

/-- DecodeToGray, lines 258-300, over the engine verdict.  The wrapper sets
    out_color_space to JCS_GRAYSCALE before jpeg_start_decompress and
    copies it into info->colorSpace; width, height and components come from
    the engine's output geometry.  The capacity check happens after the
    info fields are stored. -/
def DecodeToGray (hdr : Option GrayDecompressParams) (outputSize : Nat) : DecodeResult :=
  match hdr with
  | none => { ret := 0, info := none, aborted := false, finished := false }
  | some p =>
      let info : DecodeInfo :=
        { width := (p.output_width : Int)
          height := (p.output_height : Int)
          components := (p.output_components : Int)
          colorSpace := JCS_GRAYSCALE }
      let rowStride := p.output_width * p.output_components
      let totalSize := rowStride * p.output_height
      if totalSize > outputSize then
        { ret := 0, info := some info, aborted := true, finished := false }
      else
        { ret := totalSize, info := some info, aborted := false, finished := true }

/-- Engine-reported values for the I420 decode path: output geometry plus
    what the header parse found in the bitstream (num_components and
    jpeg_color_space), which the wrapper never reads on this path. -/
structure I420DecompressParams where
  output_width : Nat
  output_height : Nat
  num_components : Int
  jpeg_color_space : Int
deriving DecidableEq, Repr

/-- DecodeToI420, lines 305-389: header verdict, info population (lines
    328-331: components is the literal 3 and colorSpace is the
    out_color_space the wrapper itself set to JCS_YCbCr at line 321),
    required-size computation and capacity check.  The per-batch
    row-pointer construction of its loop is embedded separately below. -/
def DecodeToI420 (hdr : Option I420DecompressParams) (outputSize : Nat) : DecodeResult :=
  match hdr with
  | none => { ret := 0, info := none, aborted := false, finished := false }
  | some p =>
      let width := p.output_width
      let height := p.output_height
      let info : DecodeInfo :=
        { width := (width : Int)
          height := (height : Int)
          components := 3
          colorSpace := JCS_YCbCr }
      let totalSize := sizeY width height + sizeU width height + sizeU width height
      if totalSize > outputSize then
        { ret := 0, info := some info, aborted := true, finished := false }
      else
        { ret := totalSize, info := some info, aborted := false, finished := true }

/-- y_rows built by the DecodeToI420 loop, lines 362-368: byte offsets from
    the start of the destination Y plane, for the batch that begins at luma
    scanline s.  C pointer arithmetic, so offsets are integers (height - 1
    is computed in int). -/
def i420_y_rows (s height y_stride : Nat) : List Int :=
  (List.range 16).map (fun i =>
    if s + i < height then ((s + i : Nat) : Int) * (y_stride : Int)
    else ((height : Int) - 1) * (y_stride : Int))

/-- u_rows built at lines 370-377, as offsets from the U plane start. -/
def i420_u_rows (s height uv_stride : Nat) : List Int :=
  (List.range 8).map (fun i =>
    if s / 2 + i < height / 2 then ((s / 2 + i : Nat) : Int) * (uv_stride : Int)
    else ((height : Int) / 2 - 1) * (uv_stride : Int))

/-- v_rows built at lines 370-378, as offsets from the V plane start. -/
def i420_v_rows (s height uv_stride : Nat) : List Int :=
  (List.range 8).map (fun i =>
    if s / 2 + i < height / 2 then ((s / 2 + i : Nat) : Int) * (uv_stride : Int)
    else ((height : Int) / 2 - 1) * (uv_stride : Int))

/-- Header fields read by GetJpegInfo after jpeg_read_header. -/
structure HeaderParams where
  image_width : Nat
  image_height : Nat
  num_components : Int
  jpeg_color_space : Int
deriving DecidableEq, Repr

/-- GetJpegInfo, lines 430-451: on JPEG_HEADER_OK it returns 1 and the
    header snapshot; otherwise it returns 0 with the caller's DecodeInfo
    untouched (none).  Only jpeg_read_header runs; no pixel decode is
    started. -/
def GetJpegInfo (hdr : Option HeaderParams) : Int × Option DecodeInfo :=
  match hdr with
  | none => (0, none)
  | some h =>
      (1, some { width := (h.image_width : Int)
                 height := (h.image_height : Int)
                 components := h.num_components
                 colorSpace := h.jpeg_color_space })

/-! Helper lemmas shared by the claim theorems. -/

/-- Indexing a map over List.range. -/
theorem getElem?_map_range {α : Type} (f : Nat → α) (n i : Nat) (hi : i < n) :
    ((List.range n).map f)[i]? = some (f i) := by
  rw [List.getElem?_map, List.getElem?_range hi]
  rfl

/-- Filtering List.range for even indices keeps exactly the doubled values
    of a shorter range. -/
theorem filter_even_range (n : Nat) :
    (List.range n).filter (fun i => i % 2 == 0) =
      (List.range ((n + 1) / 2)).map (fun j => 2 * j) := by
  induction n with
  | zero => rfl
  | succ n ih =>
    rw [List.range_succ, List.filter_append, ih]
    rcases Nat.mod_two_eq_zero_or_one n with h | h
    · obtain ⟨m, rfl⟩ : ∃ m, n = 2 * m := ⟨n / 2, by omega⟩
      have h1 : (2 * m + 1) / 2 = m := by omega
      have h2 : (2 * m + 1 + 1) / 2 = m + 1 := by omega
      rw [h1, h2, List.range_succ, List.map_append]
      simp
    · obtain ⟨m, rfl⟩ : ∃ m, n = 2 * m + 1 := ⟨n / 2, by omega⟩
      have h1 : (2 * m + 1 + 1) / 2 = m + 1 := by omega
      have h2 : (2 * m + 1 + 1 + 1) / 2 = m + 1 := by omega
      rw [h1, h2]
      simp [Nat.mul_add_mod]

/-- Element i / 2 of a map over the even entries of List.range. -/
theorem getElem?_filter_even_map (g : Nat → Nat) (n i : Nat) (hi : i < n)
    (he : i % 2 = 0) :
    (((List.range n).filter (fun k => k % 2 == 0)).map g)[i / 2]? = some (g i) := by
  rw [filter_even_range, List.map_map]
  have hidx : i / 2 < (n + 1) / 2 := by omega
  rw [getElem?_map_range _ _ _ hidx]
  have h2 : 2 * (i / 2) = i := by omega
  simp [Function.comp, h2]

/-! Claim theorems. -/

/-- C1 (counterexample to the claim as stated): the claim says a decode
    whose required size exceeds the output capacity leaves the caller's
    DecodeInfo unpopulated; at a 1x1 single-component header and capacity
    0, both decoders return 0 and abort, yet the DecodeInfo has been
    populated. -/
theorem C1_counterexample :
    (DecodeToGray (some ⟨1, 1, 1⟩) 0).ret = 0 ∧
    (DecodeToGray (some ⟨1, 1, 1⟩) 0).aborted = true ∧
    (DecodeToGray (some ⟨1, 1, 1⟩) 0).info ≠ none ∧
    (DecodeToI420 (some ⟨1, 1, 3, 3⟩) 0).ret = 0 ∧
    (DecodeToI420 (some ⟨1, 1, 3, 3⟩) 0).aborted = true ∧
    (DecodeToI420 (some ⟨1, 1, 3, 3⟩) 0).info ≠ none := by
  decide

/-- C1 (amended): whenever the computed required size exceeds the supplied
    capacity, DecodeToGray and DecodeToI420 abort the decompression, do not
    finish it, and return 0 bytes written — but both populate the caller's
    DecodeInfo before the capacity check, so the info fields are written,
    not left unpopulated. -/
theorem C1_capacity_abort (p : GrayDecompressParams) (q : I420DecompressParams)
    (capG capI : Nat)
    (hG : p.output_width * p.output_components * p.output_height > capG)
    (hI : sizeY q.output_width q.output_height + sizeU q.output_width q.output_height
            + sizeU q.output_width q.output_height > capI) :
    DecodeToGray (some p) capG =
      { ret := 0
        info := some { width := (p.output_width : Int)
                       height := (p.output_height : Int)
                       components := (p.output_components : Int)
                       colorSpace := JCS_GRAYSCALE }
        aborted := true
        finished := false } ∧
    DecodeToI420 (some q) capI =
      { ret := 0
        info := some { width := (q.output_width : Int)
                       height := (q.output_height : Int)
                       components := 3
                       colorSpace := JCS_YCbCr }
        aborted := true
        finished := false } := by
  constructor
  · simp only [DecodeToGray]
    rw [if_pos hG]
  · simp only [DecodeToI420]
    rw [if_pos hI]

/-- C1 witness: the amended claim at a concrete undersized call. -/
theorem C1_capacity_abort_witness :
    ((1 : Nat) * 1 * 1 > 0) ∧
    (sizeY 1 1 + sizeU 1 1 + sizeU 1 1 > 0) ∧
    (DecodeToGray (some ⟨1, 1, 1⟩) 0 =
      { ret := 0
        info := some { width := ((1 : Nat) : Int)
                       height := ((1 : Nat) : Int)
                       components := ((1 : Nat) : Int)
                       colorSpace := JCS_GRAYSCALE }
        aborted := true
        finished := false } ∧
     DecodeToI420 (some ⟨1, 1, 3, 3⟩) 0 =
      { ret := 0
        info := some { width := ((1 : Nat) : Int)
                       height := ((1 : Nat) : Int)
                       components := 3
                       colorSpace := JCS_YCbCr }
        aborted := true
        finished := false }) :=
  ⟨by decide, by decide,
   C1_capacity_abort ⟨1, 1, 1⟩ ⟨1, 1, 3, 3⟩ 0 0 (by decide) (by decide)⟩

/-- C2: in the DecodeToI420 batch whose luma scanlines start at s, luma row
    pointer i (i < 16) addresses destination row s + i when s + i < height
    and aliases the last valid row height - 1 otherwise; chroma row pointer
    i (i < 8) addresses chroma row s / 2 + i when s / 2 + i < height / 2
    and aliases chroma row height / 2 - 1 otherwise, independently for
    u_rows and v_rows. -/
theorem C2_row_pointers (s height ys uvs i : Nat) (hi : i < 16) :
    (i420_y_rows s height ys)[i]? =
      some (if s + i < height then ((s + i : Nat) : Int) * ((ys : Nat) : Int)
            else (((height : Nat) : Int) - 1) * ((ys : Nat) : Int)) ∧
    (i < 8 →
      (i420_u_rows s height uvs)[i]? =
        some (if s / 2 + i < height / 2 then ((s / 2 + i : Nat) : Int) * ((uvs : Nat) : Int)
              else (((height : Nat) : Int) / 2 - 1) * ((uvs : Nat) : Int)) ∧
      (i420_v_rows s height uvs)[i]? =
        some (if s / 2 + i < height / 2 then ((s / 2 + i : Nat) : Int) * ((uvs : Nat) : Int)
              else (((height : Nat) : Int) / 2 - 1) * ((uvs : Nat) : Int))) :=
  ⟨getElem?_map_range _ 16 i hi,
   fun h8 => ⟨getElem?_map_range _ 8 i h8, getElem?_map_range _ 8 i h8⟩⟩

/-- C2 witness: the row-pointer characterisation at a concrete batch. -/
theorem C2_row_pointers_witness :
    (2 < 16) ∧
    ((i420_y_rows 5 7 7)[2]? =
      some (if 5 + 2 < 7 then ((5 + 2 : Nat) : Int) * ((7 : Nat) : Int)
            else (((7 : Nat) : Int) - 1) * ((7 : Nat) : Int)) ∧
     (2 < 8 →
       (i420_u_rows 5 7 3)[2]? =
         some (if 5 / 2 + 2 < 7 / 2 then ((5 / 2 + 2 : Nat) : Int) * ((3 : Nat) : Int)
               else (((7 : Nat) : Int) / 2 - 1) * ((3 : Nat) : Int)) ∧
       (i420_v_rows 5 7 3)[2]? =
         some (if 5 / 2 + 2 < 7 / 2 then ((5 / 2 + 2 : Nat) : Int) * ((3 : Nat) : Int)
               else (((7 : Nat) : Int) / 2 - 1) * ((3 : Nat) : Int)))) :=
  ⟨by decide, C2_row_pointers 5 7 7 3 2 (by decide)⟩

/-- C5: init_destination sets the write cursor to the buffer start, the
    remaining capacity to the full capacity and the written size to zero;
    term_destination sets the written size to capacity minus remaining
    capacity; and the Encode destination lifecycle returns exactly that
    written size (the n bytes the engine emitted, for n within the
    capacity). -/
theorem C5_dest_accounting (d : memory_destination_mgr)
    (cur : Option memory_destination_mgr) (buf cap n : Nat) (hn : n ≤ cap) :
    (init_destination d).pub.next_output_byte = d.buffer ∧
    (init_destination d).pub.free_in_buffer = d.buffer_size ∧
    (init_destination d).data_size = 0 ∧
    (term_destination d).data_size = d.buffer_size - d.pub.free_in_buffer ∧
    (EncodeDest cur buf cap n).ret = (EncodeDest cur buf cap n).dest.data_size ∧
    (EncodeDest cur buf cap n).ret = n := by
  refine ⟨rfl, rfl, rfl, rfl, rfl, ?_⟩
  cases cur <;>
    simp [EncodeDest, jpeg_memory_dest, init_destination, engineWrite,
      term_destination] <;>
    omega

/-- C5 witness: the accounting at a concrete adapter and a 5-byte write
    into a capacity-6 buffer. -/
theorem C5_dest_accounting_witness :
    (5 ≤ 6) ∧
    ((init_destination ⟨⟨0, 0, 1, 2, 3⟩, 10, 7, 9⟩).pub.next_output_byte =
        (⟨⟨0, 0, 1, 2, 3⟩, 10, 7, 9⟩ : memory_destination_mgr).buffer ∧
     (init_destination ⟨⟨0, 0, 1, 2, 3⟩, 10, 7, 9⟩).pub.free_in_buffer =
        (⟨⟨0, 0, 1, 2, 3⟩, 10, 7, 9⟩ : memory_destination_mgr).buffer_size ∧
     (init_destination ⟨⟨0, 0, 1, 2, 3⟩, 10, 7, 9⟩).data_size = 0 ∧
     (term_destination ⟨⟨0, 0, 1, 2, 3⟩, 10, 7, 9⟩).data_size =
        (⟨⟨0, 0, 1, 2, 3⟩, 10, 7, 9⟩ : memory_destination_mgr).buffer_size -
          (⟨⟨0, 0, 1, 2, 3⟩, 10, 7, 9⟩ : memory_destination_mgr).pub.free_in_buffer ∧
     (EncodeDest none 4 6 5).ret = (EncodeDest none 4 6 5).dest.data_size ∧
     (EncodeDest none 4 6 5).ret = 5) :=
  ⟨by decide, C5_dest_accounting ⟨⟨0, 0, 1, 2, 3⟩, 10, 7, 9⟩ none 4 6 5 (by decide)⟩

/-- C6: GetJpegInfo returns the failure sentinel 0 and leaves the caller's
    DecodeInfo untouched when jpeg_read_header does not report
    JPEG_HEADER_OK (malformed or truncated header), and on success returns
    the success sentinel 1 with width, height, component count and color
    space taken from the parsed header alone (no pixel decode is run). -/
theorem C6_probe (h : HeaderParams) :
    GetJpegInfo none = (0, none) ∧
    GetJpegInfo (some h) =
      (1, some { width := (h.image_width : Int)
                 height := (h.image_height : Int)
                 components := h.num_components
                 colorSpace := h.jpeg_color_space }) :=
  ⟨rfl, rfl⟩

/-- C7: rebinding jpeg_memory_dest on a compressor that already has a
    destination reuses the existing object (no allocation), changes only
    the buffer pointer, the capacity and the written size (reset to zero),
    and leaves all pub fields — the callback slots in particular —
    unchanged; Encode performs this rebind before compression starts, so
    init_destination grants exactly the freshly bound window and the whole
    call runs against the supplied buffer. -/
theorem C7_rebind (d : memory_destination_mgr) (buf cap n : Nat) :
    (jpeg_memory_dest (some d) buf cap).2 = false ∧
    (jpeg_memory_dest (some d) buf cap).1.buffer = buf ∧
    (jpeg_memory_dest (some d) buf cap).1.buffer_size = cap ∧
    (jpeg_memory_dest (some d) buf cap).1.data_size = 0 ∧
    (jpeg_memory_dest (some d) buf cap).1.pub = d.pub ∧
    (init_destination (jpeg_memory_dest (some d) buf cap).1).pub.next_output_byte = buf ∧
    (init_destination (jpeg_memory_dest (some d) buf cap).1).pub.free_in_buffer = cap ∧
    (EncodeDest (some d) buf cap n).allocatedNew = false ∧
    (EncodeDest (some d) buf cap n).dest.buffer = buf :=
  ⟨rfl, rfl, rfl, rfl, rfl, rfl, rfl, rfl, rfl⟩

/-- C3: in the YuvEncoder::Encode batch starting at scanline s, for
    s + i < height the i-th luma row pointer is Y + (s + i) * width with the
    Y plane at offset 0, and for even i the chroma row pointers (array
    entry i / 2) are U + ((s + i) / 2) * (width / 2) and
    V + ((s + i) / 2) * (width / 2), with U at offset width * height and V
    at offset width * height + width * height / 4 in the caller's planar
    buffer; every such row lies inside its plane of the source buffer (no
    row is copied — the lists hold offsets into the caller's buffer). -/
theorem C3_encode_rows (s width height i : Nat) (hi : i < 16) (hs : s + i < height)
    (hw : 2 ∣ width) (hh : 2 ∣ height) :
    (enc_y_rows s width height)[i]? = some ((s + i) * width) ∧
    (s + i) * width + width ≤ width * height ∧
    (i % 2 = 0 →
      (enc_cb_rows s width height)[i / 2]? =
        some (width * height + ((s + i) / 2) * (width / 2)) ∧
      (enc_cr_rows s width height)[i / 2]? =
        some (width * height + width * height / 4 + ((s + i) / 2) * (width / 2)) ∧
      width * height + ((s + i) / 2) * (width / 2) + width / 2 ≤
        width * height + width * height / 4 ∧
      width * height + width * height / 4 + ((s + i) / 2) * (width / 2) + width / 2 ≤
        width * height + width * height / 4 + width * height / 4) := by
  have hc : i < encBatchLen s height := by
    rw [encBatchLen, Nat.lt_min]
    exact ⟨hi, by omega⟩
  obtain ⟨a, rfl⟩ := hw
  obtain ⟨b, rfl⟩ := hh
  have hw2 : 2 * a / 2 = a := by omega
  have h4 : 2 * a * (2 * b) / 4 = a * b := by
    have h : 2 * a * (2 * b) = 4 * (a * b) := by ring
    rw [h, Nat.mul_div_cancel_left _ (by norm_num)]
  refine ⟨?_, ?_, fun he => ⟨?_, ?_, ?_, ?_⟩⟩
  · exact getElem?_map_range _ _ _ hc
  · have h1 : (s + i + 1) * (2 * a) ≤ 2 * b * (2 * a) :=
      Nat.mul_le_mul_right (2 * a) (by omega)
    calc (s + i) * (2 * a) + 2 * a = (s + i + 1) * (2 * a) := by ring
      _ ≤ 2 * b * (2 * a) := h1
      _ = 2 * a * (2 * b) := Nat.mul_comm (2 * b) (2 * a)
  · exact getElem?_filter_even_map _ _ _ hc he
  · exact getElem?_filter_even_map _ _ _ hc he
  · rw [hw2, h4]
    have hdiv : (s + i) / 2 ≤ b - 1 := by omega
    have hmul : (s + i) / 2 * a ≤ (b - 1) * a := Nat.mul_le_mul_right a hdiv
    have heq : (b - 1) * a + a = a * b := by
      have hb' : b - 1 + 1 = b := by omega
      calc (b - 1) * a + a = (b - 1 + 1) * a := by ring
        _ = b * a := by rw [hb']
        _ = a * b := Nat.mul_comm b a
    linarith [hmul, heq]
  · rw [hw2, h4]
    have hdiv : (s + i) / 2 ≤ b - 1 := by omega
    have hmul : (s + i) / 2 * a ≤ (b - 1) * a := Nat.mul_le_mul_right a hdiv
    have heq : (b - 1) * a + a = a * b := by
      have hb' : b - 1 + 1 = b := by omega
      calc (b - 1) * a + a = (b - 1 + 1) * a := by ring
        _ = b * a := by rw [hb']
        _ = a * b := Nat.mul_comm b a
    linarith [hmul, heq]

/-- C3 witness: the encode row pointers at a concrete batch of a 2 x 18
    frame. -/
theorem C3_encode_rows_witness :
    (0 < 16) ∧ (0 + 0 < 18) ∧ ((2 : Nat) ∣ 2) ∧ ((2 : Nat) ∣ 18) ∧
    ((enc_y_rows 0 2 18)[0]? = some ((0 + 0) * 2) ∧
     (0 + 0) * 2 + 2 ≤ 2 * 18 ∧
     (0 % 2 = 0 →
       (enc_cb_rows 0 2 18)[0 / 2]? = some (2 * 18 + ((0 + 0) / 2) * (2 / 2)) ∧
       (enc_cr_rows 0 2 18)[0 / 2]? =
         some (2 * 18 + 2 * 18 / 4 + ((0 + 0) / 2) * (2 / 2)) ∧
       2 * 18 + ((0 + 0) / 2) * (2 / 2) + 2 / 2 ≤ 2 * 18 + 2 * 18 / 4 ∧
       2 * 18 + 2 * 18 / 4 + ((0 + 0) / 2) * (2 / 2) + 2 / 2 ≤
         2 * 18 + 2 * 18 / 4 + 2 * 18 / 4)) :=
  ⟨by decide, by decide, by decide, by decide,
   C3_encode_rows 0 2 18 0 (by decide) (by decide) (by decide) (by decide)⟩

/-- C8 (counterexample to the claim as stated): the claim quantifies over
    every integer n, but skip_input_data ignores nonpositive counts: at
    n = -1 the read cursor does not move to 100 + (-1). -/
theorem C8_counterexample :
    (skip_input_data ⟨100, 50⟩ (-1)).next_input_byte ≠ 100 + (-1) := by
  decide

/-- C8 (amended): for every nonnegative n not exceeding the remaining
    length (itself a valid size_t value), skip_input_data advances the read
    cursor by n bytes and decrements the remaining length by n; a negative
    count leaves the source state unchanged (as does n = 0). -/
theorem C8_skip (s : jpeg_source_mgr) (n : Int)
    (hn : 0 ≤ n) (hle : n ≤ (s.bytes_in_buffer : Int))
    (hsz : s.bytes_in_buffer < SIZE_T_MOD) :
    (skip_input_data s n).next_input_byte = s.next_input_byte + n ∧
    ((skip_input_data s n).bytes_in_buffer : Int) = (s.bytes_in_buffer : Int) - n ∧
    (∀ m : Int, m ≤ 0 → skip_input_data s m = s) := by
  have hnoop : ∀ m : Int, m ≤ 0 → skip_input_data s m = s := by
    intro m hm
    rw [skip_input_data, if_neg (by omega)]
  rcases lt_or_eq_of_le hn with hpos | hzero
  · rw [skip_input_data, if_pos hpos]
    refine ⟨rfl, ?_, hnoop⟩
    dsimp only
    rw [SIZE_T_MOD] at hsz ⊢
    omega
  · rw [← hzero]
    rw [hnoop 0 le_rfl]
    exact ⟨by omega, by omega, hnoop⟩

/-- C8 witness: the amended skip behaviour at a 3-byte skip over a 50-byte
    remainder. -/
theorem C8_skip_witness :
    ((0 : Int) ≤ 3) ∧
    ((3 : Int) ≤ (((⟨100, 50⟩ : jpeg_source_mgr).bytes_in_buffer : Nat) : Int)) ∧
    ((⟨100, 50⟩ : jpeg_source_mgr).bytes_in_buffer < SIZE_T_MOD) ∧
    ((skip_input_data ⟨100, 50⟩ 3).next_input_byte =
        (⟨100, 50⟩ : jpeg_source_mgr).next_input_byte + 3 ∧
     (((skip_input_data ⟨100, 50⟩ 3).bytes_in_buffer : Nat) : Int) =
        (((⟨100, 50⟩ : jpeg_source_mgr).bytes_in_buffer : Nat) : Int) - 3 ∧
     (∀ m : Int, m ≤ 0 → skip_input_data ⟨100, 50⟩ m = ⟨100, 50⟩)) :=
  ⟨by decide, by decide, by decide,
   C8_skip ⟨100, 50⟩ 3 (by decide) (by decide) (by decide)⟩

/-- C9: SetMode 0 selects the accurate integer DCT (JDCT_ISLOW), SetMode
    with any nonzero mode selects the fastest approximate DCT
    (JDCT_FASTEST, i.e. JDCT_IFAST), and a subsequent Encode on the same
    session runs with the selected method and does not change it. -/
theorem C9_set_mode (st : YuvEncoderState) (mode : Int) (hm : mode ≠ 0)
    (buf cap n : Nat) :
    (SetMode st 0).dct_method = DctMethod.JDCT_ISLOW ∧
    (SetMode st mode).dct_method = JDCT_FASTEST ∧
    (YuvEncoderEncode (SetMode st mode) buf cap n).usedDct = JDCT_FASTEST ∧
    (YuvEncoderEncode (SetMode st 0) buf cap n).usedDct = DctMethod.JDCT_ISLOW ∧
    (YuvEncoderEncode (SetMode st mode) buf cap n).state.dct_method = JDCT_FASTEST := by
  have hb : (mode == 0) = false := by simpa using hm
  refine ⟨?_, ?_, ?_, ?_, ?_⟩ <;> simp [SetMode, YuvEncoderEncode, hb]

/-- C9 witness: mode selection on a concrete session with nonzero mode 1. -/
theorem C9_set_mode_witness :
    ((1 : Int) ≠ 0) ∧
    ((SetMode ⟨64, 64, 80, DctMethod.JDCT_ISLOW, none⟩ 0).dct_method =
        DctMethod.JDCT_ISLOW ∧
     (SetMode ⟨64, 64, 80, DctMethod.JDCT_ISLOW, none⟩ 1).dct_method = JDCT_FASTEST ∧
     (YuvEncoderEncode (SetMode ⟨64, 64, 80, DctMethod.JDCT_ISLOW, none⟩ 1) 0 0 0).usedDct =
        JDCT_FASTEST ∧
     (YuvEncoderEncode (SetMode ⟨64, 64, 80, DctMethod.JDCT_ISLOW, none⟩ 0) 0 0 0).usedDct =
        DctMethod.JDCT_ISLOW ∧
     (YuvEncoderEncode (SetMode ⟨64, 64, 80, DctMethod.JDCT_ISLOW, none⟩ 1) 0 0 0).state.dct_method =
        JDCT_FASTEST) :=
  ⟨by decide, C9_set_mode ⟨64, 64, 80, DctMethod.JDCT_ISLOW, none⟩ 1 (by decide) 0 0 0⟩

/-- C10: whenever DecodeToI420 proceeds past the header, the DecodeInfo it
    populates reports components = 3 and colorSpace = JCS_YCbCr (fixed by
    the requested output configuration), and the whole call result is
    unchanged when the bitstream's parsed component count and color space
    vary — only the output geometry matters. -/
theorem C10_fixed_info (p q : I420DecompressParams) (cap : Nat)
    (hw : p.output_width = q.output_width) (hh : p.output_height = q.output_height) :
    (DecodeToI420 (some p) cap).info =
      some { width := (p.output_width : Int)
             height := (p.output_height : Int)
             components := 3
             colorSpace := JCS_YCbCr } ∧
    DecodeToI420 (some p) cap = DecodeToI420 (some q) cap := by
  obtain ⟨pw, ph, pc, ps⟩ := p
  obtain ⟨qw, qh, qc, qs⟩ := q
  have hw' : pw = qw := hw
  have hh' : ph = qh := hh
  subst hw'
  subst hh'
  constructor
  · simp only [DecodeToI420]
    split <;> rfl
  · rfl

/-- C10 witness: the fixed info fields at two concrete headers differing
    only in the parsed bitstream component count and color space. -/
theorem C10_fixed_info_witness :
    ((⟨2, 2, 1, 2⟩ : I420DecompressParams).output_width =
        (⟨2, 2, 3, 3⟩ : I420DecompressParams).output_width) ∧
    ((⟨2, 2, 1, 2⟩ : I420DecompressParams).output_height =
        (⟨2, 2, 3, 3⟩ : I420DecompressParams).output_height) ∧
    ((DecodeToI420 (some ⟨2, 2, 1, 2⟩) 100).info =
       some { width := ((2 : Nat) : Int)
              height := ((2 : Nat) : Int)
              components := 3
              colorSpace := JCS_YCbCr } ∧
     DecodeToI420 (some ⟨2, 2, 1, 2⟩) 100 = DecodeToI420 (some ⟨2, 2, 3, 3⟩) 100) :=
  ⟨rfl, rfl, C10_fixed_info ⟨2, 2, 1, 2⟩ ⟨2, 2, 3, 3⟩ 100 rfl rfl⟩

end LibJpegWrap
